import Mathlib

/-!
Verification of the rain-detection and notification-dedup engine of the
weather-report-bot repository.

Shallow embedding conventions:
* Instants are rationals counting seconds (the source works with
  timezone-aware datetimes and compares differences via total_seconds).
* `datetime.now()` is passed explicitly as a `now : ℚ` argument.
* Precipitation (mm) and probability (percent) are rationals.
* The dedup ledger file rain_alerts_sent.json is a list of
  (key, value) pairs; a value `none` stands for a stored timestamp string
  that `datetime.fromisoformat` fails to parse, `some t` for one parsing
  to instant `t`.
* Python exceptions raised by out-of-core collaborators (geocoding,
  forecast fetch, Telegram send) are injected through `Except`/flag
  fields of `UserCtx`; exceptions inside the embedded core code are
  modelled where the source catches them (the per-point try/except of
  get_detailed_rain_alert becomes the `Option` time entries, the
  per-user try/except of check_and_send_rain_alerts becomes the
  `.errored` outcome).
-/

/-- The dedup ledger (rain_alerts_sent.json): keys are the ad hoc strings
built by `eventKey`, values are the recorded last-sent instants
(`none` = unparsable timestamp string). -/
abbrev Tracker := List (String × Option ℚ)

/-- Rain intensity tier, from weather_service.py lines 259-265 (the source
stores the localized TRANSLATIONS string; the three tiers are modelled as
an enumeration). -/
inductive Intensity
  | light
  | moderate
  | heavy
deriving DecidableEq

/-- Numeric rank of an intensity tier, used to state monotonicity. -/
def Intensity.rank : Intensity → ℕ
  | .light => 0
  | .moderate => 1
  | .heavy => 2

/-- One element of the list returned by get_detailed_rain_alert
(weather_service.py lines 266-273). The source dict also carries a
presentation-only `hour` field (`hour_time.hour`), unused downstream;
it is omitted. -/
structure RainEvent where
  time : ℚ
  precipitation : ℚ
  probability : ℚ
  intensity : Intensity
  weather_code : ℤ
deriving DecidableEq

/-- The `hourly` dict of the forecast response. `time = none` /
`precipitation = none` model a missing dict key (the source guard
returns [] then); an entry `none` inside `time` models a string
that strptime fails to parse (the per-point try/except then skips
that index). `precipitation_probability` and `weather_code` default
to [] via dict.get in the source. -/
structure HourlyData where
  time : Option (List (Option ℚ))
  precipitation : Option (List ℚ)
  precipitation_probability : List ℚ
  weather_code : List ℤ
deriving DecidableEq

/-- Weather codes treated as rain (weather_service.py line 251). -/
def rainCodes : List ℤ := [51, 53, 55, 61, 63, 65, 80, 81, 82, 95, 96, 99]

/-- Intensity thresholds of weather_service.py lines 259-265:
precip ≤ 2.5 → light, ≤ 7.5 → moderate, else heavy. -/
def classifyIntensity (precip : ℚ) : Intensity :=
  if precip ≤ 5 / 2 then .light
  else if precip ≤ 15 / 2 then .moderate
  else .heavy

/-- Body of the scan loop of get_detailed_rain_alert for one index `i`
(weather_service.py lines 232-276): parse the time (skip on failure),
skip past or current hours, read precip/prob/code with default 0 when the
array is shorter, keep the point when
(precip ≥ 0.1 ∧ prob ≥ 20) ∨ code ∈ rainCodes. -/
def candidateAt (times : List (Option ℚ)) (precipArr probArr : List ℚ)
    (codeArr : List ℤ) (now : ℚ) (i : ℕ) : Option RainEvent :=
  match times.getD i none with
  | none => none
  | some t =>
    if t ≤ now then none
    else
      if (precipArr.getD i 0 ≥ 1 / 10 ∧ probArr.getD i 0 ≥ 20) ∨
          codeArr.getD i 0 ∈ rainCodes then
        some ⟨t, precipArr.getD i 0, probArr.getD i 0,
          classifyIntensity (precipArr.getD i 0), codeArr.getD i 0⟩
      else none

/-- get_detailed_rain_alert (weather_service.py lines 215-278): returns []
when the hourly dict misses the time or precipitation key, else scans the
first min(hours, len(times)) indices and collects qualifying points in
input order. -/
def get_detailed_rain_alert (hd : HourlyData) (now : ℚ) (hours : ℕ) : List RainEvent :=
  match hd.time, hd.precipitation with
  | some times, some precipArr =>
      (List.range (min hours times.length)).filterMap
        (candidateAt times precipArr hd.precipitation_probability hd.weather_code now)
  | _, _ => []

/-- Key building of rain_alerts_tracker.py lines 50 and 73:
f-string user_city_time. -/
def eventKey (userId city timeStr : String) : String :=
  userId ++ "_" ++ city ++ "_" ++ timeStr

/-- strftime %H:%M of check_rain_alerts.py line 146: the event instant
truncated to its minute of day, rendered H:M (zero padding is a
presentation detail; the rendering is injective on minutes of day like
the original). -/
def hhmmBucket (t : ℚ) : String :=
  let m : ℤ := ⌊t / 60⌋ % 1440
  toString (m / 60) ++ ":" ++ toString (m % 60)

/-- Python dict assignment tracker[k] = v on the ledger. -/
def setEntry (tr : Tracker) (k : String) (v : Option ℚ) : Tracker :=
  (k, v) :: tr.filter (fun p => !(p.1 == k))

/-- has_alert_been_sent_recently (rain_alerts_tracker.py lines 34-66).
Returns the boolean answer together with the ledger state left on disk
(the function deletes — and saves — an entry whose timestamp fails to
parse). True exactly when the key is present, parses, and
(now - last_sent)/3600 < cooldown_hours. -/
def has_alert_been_sent_recently (tr : Tracker) (now : ℚ)
    (userId city rainTime : String) (cooldownHours : ℚ) : Bool × Tracker :=
  match tr.lookup (eventKey userId city rainTime) with
  | none => (false, tr)
  | some none => (false, tr.filter (fun p => !(p.1 == eventKey userId city rainTime)))
  | some (some lastSent) =>
      if (now - lastSent) / 3600 < cooldownHours then (true, tr) else (false, tr)

/-- mark_alert_as_sent (rain_alerts_tracker.py lines 68-92): store `now`
under the key, then drop every entry whose timestamp is unparsable or
strictly older than 24 hours. -/
def mark_alert_as_sent (tr : Tracker) (now : ℚ) (userId city rainTime : String) : Tracker :=
  (setEntry tr (eventKey userId city rainTime) (some now)).filter (fun p =>
    match p.2 with
    | none => false
    | some t => decide (now - t ≤ 24 * 3600))

/-- The imminence window test of check_rain_alerts.py line 140:
timedelta(minutes=15) < event.time - now < timedelta(minutes=90),
strict on both ends. -/
def inAlertWindow (e : RainEvent) (now : ℚ) : Bool :=
  decide (15 * 60 < e.time - now ∧ e.time - now < 90 * 60)

/-- The upcoming_rain list of check_rain_alerts.py lines 136-141. -/
def upcomingRain (events : List RainEvent) (now : ℚ) : List RainEvent :=
  events.filter (fun e => inAlertWindow e now)

/-- Outcome of the per-user pipeline body (check_rain_alerts.py
lines 105-203). -/
inductive StepResult
  | sent
  | skippedDup
  | noAction
  | errored
deriving DecidableEq

/-- Per-user input of one scan. The collaborator results model the
out-of-core calls: `coords`/`forecast` as `.error` inject an exception
raised during city resolution or forecast fetch (caught by the per-user
handler), `.ok none` their in-band failure answers (lat is None / empty
weather_data, which the source skips with a warning), and
`sendRaises` an exception from the Telegram send. -/
structure UserCtx where
  userId : String
  city : Option String
  coords : Except Unit (Option (ℚ × ℚ))
  forecast : Except Unit (Option HourlyData)
  sendRaises : Bool

/-- One user's pass of check_and_send_rain_alerts (lines 105-203):
resolve city, fetch forecast, extract rain events (24h horizon), filter
for the 15-90 minute window, take the first upcoming event, consult the
ledger with cooldown_hours=6, send unless duplicated, and record the send.
Exceptions from collaborators surface as `.errored` (the except branch of
lines 201-203); mark_alert_as_sent runs only after the send returned. -/
def processUser (ctx : UserCtx) (now : ℚ) (tr : Tracker) : StepResult × Tracker :=
  match ctx.city with
  | none => (.noAction, tr)
  | some city =>
    match ctx.coords with
    | .error _ => (.errored, tr)
    | .ok none => (.noAction, tr)
    | .ok (some _) =>
      match ctx.forecast with
      | .error _ => (.errored, tr)
      | .ok none => (.noAction, tr)
      | .ok (some hd) =>
        if (get_detailed_rain_alert hd now 24).isEmpty then (.noAction, tr)
        else
          match (upcomingRain (get_detailed_rain_alert hd now 24) now).head? with
          | none => (.noAction, tr)
          | some firstRain =>
            if (has_alert_been_sent_recently tr now ctx.userId city
                (hhmmBucket firstRain.time) 6).1 then
              (.skippedDup,
                (has_alert_been_sent_recently tr now ctx.userId city
                  (hhmmBucket firstRain.time) 6).2)
            else if ctx.sendRaises then
              (.errored,
                (has_alert_been_sent_recently tr now ctx.userId city
                  (hhmmBucket firstRain.time) 6).2)
            else
              (.sent,
                mark_alert_as_sent
                  (has_alert_been_sent_recently tr now ctx.userId city
                    (hhmmBucket firstRain.time) 6).2
                  now ctx.userId city (hhmmBucket firstRain.time))

/-- Run statistics of check_and_send_rain_alerts
(alerts_sent / skipped_alerts / errors, lines 101-103). -/
structure Counts where
  sent : ℕ
  skipped : ℕ
  errors : ℕ
deriving DecidableEq

/-- Counter updates of check_and_send_rain_alerts
(lines 152, 195, 202). -/
def applyResult (c : Counts) : StepResult → Counts
  | .sent => { c with sent := c.sent + 1 }
  | .skippedDup => { c with skipped := c.skipped + 1 }
  | .noAction => c
  | .errored => { c with errors := c.errors + 1 }

/-- One iteration of the user loop: run the pipeline, update the counters,
thread the ledger state. -/
def scanStep (now : ℚ) (acc : Counts × Tracker) (u : UserCtx) : Counts × Tracker :=
  (applyResult acc.1 (processUser u now acc.2).1, (processUser u now acc.2).2)

/-- The user loop of check_and_send_rain_alerts (lines 105-203): every
enrolled user is processed in sequence; a failing user only bumps the
error counter. -/
def runScan (users : List UserCtx) (now : ℚ) (tr : Tracker) : Counts × Tracker :=
  users.foldl (scanStep now) (⟨0, 0, 0⟩, tr)

/-- A ledger whose stored values all parse. Every write of the system
stores datetime.now().isoformat(), which parses back, and both ledger
functions drop unparsable entries, so this is an invariant of all
reachable ledgers. -/
def WellFormedTracker (tr : Tracker) : Prop :=
  ∀ p ∈ tr, p.2.isSome = true

/-- Concrete forecast fixture: one point 30 minutes ahead of instant 0,
3 mm precipitation, 60 percent probability. -/
def hd0 : HourlyData :=
  { time := some [some 1800], precipitation := some [3],
    precipitation_probability := [60], weather_code := [0] }

/-- Concrete enrolled user whose scan sends an alert at instant 0. -/
def ctx0 : UserCtx :=
  { userId := "u1", city := some "Rome", coords := .ok (some (1, 1)),
    forecast := .ok (some hd0), sendRaises := false }

/-- Second concrete enrolled user (distinct dedup key). -/
def ctx2 : UserCtx :=
  { userId := "u2", city := some "Rome", coords := .ok (some (1, 1)),
    forecast := .ok (some hd0), sendRaises := false }

/-- Concrete user whose city resolution raises. -/
def ctxBad : UserCtx :=
  { userId := "u9", city := some "Rome", coords := .error (),
    forecast := .ok none, sendRaises := false }

/-- Concrete user whose Telegram send raises. -/
def ctxRaise : UserCtx :=
  { userId := "u1", city := some "Rome", coords := .ok (some (1, 1)),
    forecast := .ok (some hd0), sendRaises := true }

/-- Forecast fixture with a point of zero precipitation and zero
probability but a rainy weather code (61 = rain). -/
def hdC2 : HourlyData :=
  { time := some [some 3600], precipitation := some [0],
    precipitation_probability := [0], weather_code := [61] }

/-- Forecast fixture whose single point lies 1000 hours ahead of
instant 0 — far beyond a 24-hour horizon. -/
def hdC6 : HourlyData :=
  { time := some [some 3600000], precipitation := some [5],
    precipitation_probability := [80], weather_code := [0] }

/-- Ledger fixture: one record for key u_c_t recorded at instant 0. -/
def trW : Tracker := [("u_c_t", some 0)]

/-- Selection fixtures for the imminence filter: 20 and 50 minutes ahead. -/
def evA : RainEvent := ⟨1200, 3, 60, .moderate, 0⟩

/-- Second selection fixture, later but heavier. -/
def evB : RainEvent := ⟨3000, 9, 80, .heavy, 0⟩

/-- Membership in the extractor output comes from a scanned index. -/
theorem mem_gdra {hd : HourlyData} {now : ℚ} {hours : ℕ} {e : RainEvent}
    (he : e ∈ get_detailed_rain_alert hd now hours) :
    ∃ times precipArr, hd.time = some times ∧ hd.precipitation = some precipArr ∧
      ∃ i, i < min hours times.length ∧
        candidateAt times precipArr hd.precipitation_probability hd.weather_code now i
          = some e := by
  unfold get_detailed_rain_alert at he
  cases htime : hd.time with
  | none => rw [htime] at he; simp at he
  | some times =>
    cases hprec : hd.precipitation with
    | none => rw [htime, hprec] at he; simp at he
    | some precipArr =>
      rw [htime, hprec] at he
      rcases List.mem_filterMap.mp he with ⟨i, hi, hcand⟩
      exact ⟨times, precipArr, rfl, rfl, i, List.mem_range.mp hi, hcand⟩

/-- What a successful candidate extraction tells about the event. -/
theorem candidateAt_some {times : List (Option ℚ)} {precipArr probArr : List ℚ}
    {codeArr : List ℤ} {now : ℚ} {i : ℕ} {e : RainEvent}
    (h : candidateAt times precipArr probArr codeArr now i = some e) :
    times.getD i none = some e.time ∧ now < e.time ∧
      e.precipitation = precipArr.getD i 0 ∧
      e.probability = probArr.getD i 0 ∧
      e.intensity = classifyIntensity e.precipitation ∧
      e.weather_code = codeArr.getD i 0 ∧
      ((e.precipitation ≥ 1 / 10 ∧ e.probability ≥ 20) ∨ e.weather_code ∈ rainCodes) := by
  unfold candidateAt at h
  split at h
  · exact absurd h (by simp)
  · rename_i t ht
    by_cases hle : t ≤ now
    · rw [if_pos hle] at h; simp at h
    · rw [if_neg hle] at h
      by_cases hrain :
          (precipArr.getD i 0 ≥ 1 / 10 ∧ probArr.getD i 0 ≥ 20) ∨
            codeArr.getD i 0 ∈ rainCodes
      · rw [if_pos hrain] at h
        cases h
        exact ⟨ht, lt_of_not_le hle, rfl, rfl, rfl, rfl, hrain⟩
      · rw [if_neg hrain] at h; simp at h

/-- C7: the extractor never returns a point at or before the reference
instant: every returned candidate is strictly in the future. -/
theorem no_past_events (hd : HourlyData) (now : ℚ) (hours : ℕ) (e : RainEvent)
    (he : e ∈ get_detailed_rain_alert hd now hours) : now < e.time := by
  rcases mem_gdra he with ⟨times, precipArr, -, -, i, -, hcand⟩
  exact (candidateAt_some hcand).2.1

/-- C7 witness: the concrete candidate of hd0 is strictly after instant 0. -/
theorem no_past_events_witness : (0 : ℚ) < 1800 :=
  no_past_events hd0 0 24 ⟨1800, 3, 60, .moderate, 0⟩ (by
    norm_num [get_detailed_rain_alert, hd0, candidateAt, classifyIntensity, rainCodes,
      List.range_succ, List.filterMap_cons])

/-- C8: intensity is light up to 2.5 mm, moderate up to 7.5 mm, heavy
beyond, and as a function of the amount it is a non-decreasing step
function with transitions exactly at 2.5 and 7.5. -/
theorem intensity_steps :
    (∀ a : ℚ, (a ≤ 5 / 2 → classifyIntensity a = .light) ∧
      (5 / 2 < a → a ≤ 15 / 2 → classifyIntensity a = .moderate) ∧
      (15 / 2 < a → classifyIntensity a = .heavy)) ∧
    ∀ a b : ℚ, a ≤ b → (classifyIntensity a).rank ≤ (classifyIntensity b).rank := by
  constructor
  · intro a
    refine ⟨fun h => ?_, fun h1 h2 => ?_, fun h => ?_⟩
    · rw [classifyIntensity, if_pos h]
    · rw [classifyIntensity, if_neg (by linarith), if_pos h2]
    · rw [classifyIntensity, if_neg (by linarith), if_neg (by linarith)]
  · intro a b hab
    unfold classifyIntensity
    split_ifs with h1 h2 h3 h4 h5 h6 <;>
      simp [Intensity.rank] <;> linarith

/-- C8 witness: 3 mm classifies as moderate. -/
theorem intensity_steps_witness : classifyIntensity 3 = .moderate :=
  (intensity_steps.1 3).2.1 (by norm_num) (by norm_num)

/-- C9: immediately after any write, every surviving ledger entry parses
and is at most 24 hours old. -/
theorem pruning_on_write (tr : Tracker) (now : ℚ) (u c ts : String)
    (p : String × Option ℚ) (hp : p ∈ mark_alert_as_sent tr now u c ts) :
    ∃ t, p.2 = some t ∧ now - t ≤ 24 * 3600 := by
  unfold mark_alert_as_sent at hp
  rcases List.mem_filter.mp hp with ⟨-, hpred⟩
  cases hv : p.2 with
  | none => rw [hv] at hpred; simp at hpred
  | some t =>
    rw [hv] at hpred
    simp only [decide_eq_true_eq] at hpred
    exact ⟨t, rfl, hpred⟩

/-- C9 witness: the freshly written record of a concrete write is present,
parsable and not stale. -/
theorem pruning_on_write_witness :
    ∃ t, (("u_c_t", some (0 : ℚ)) : String × Option ℚ).2 = some t ∧
      (0 : ℚ) - t ≤ 24 * 3600 :=
  pruning_on_write [] 0 "u" "c" "t" ("u_c_t", some 0) (by
    norm_num [mark_alert_as_sent, setEntry, eventKey, List.filter_cons]
    rfl)

/-- C2 counterexample: a point with zero precipitation and zero
probability — failing the conjunctive significance test — is still
emitted as a rain event, because its weather code 61 passes the
disjunctive weather-code branch of the classifier. -/
theorem classifier_conjunction_counterexample :
    get_detailed_rain_alert hdC2 0 24
        = [{ time := 3600, precipitation := 0, probability := 0,
             intensity := .light, weather_code := 61 }] ∧
      ¬((0 : ℚ) ≥ 1 / 10 ∧ (0 : ℚ) ≥ 20) := by
  constructor
  · norm_num [get_detailed_rain_alert, hdC2, candidateAt, classifyIntensity, rainCodes,
      List.range_succ, List.filterMap_cons]
  · norm_num

/-- C2 amended: a point is emitted as a rain event only if it passes the
significance test precipitation_mm ≥ 0.1 ∧ probability_percent ≥ 20 OR
its weather code is one of the rain/drizzle/shower/thunderstorm codes:
every emitted point satisfies this disjunction, so every point failing
both tests is dropped and never appears in the output. -/
theorem classifier_significance_or_code (hd : HourlyData) (now : ℚ) (hours : ℕ)
    (e : RainEvent) (he : e ∈ get_detailed_rain_alert hd now hours) :
    (e.precipitation ≥ 1 / 10 ∧ e.probability ≥ 20) ∨ e.weather_code ∈ rainCodes := by
  rcases mem_gdra he with ⟨times, precipArr, -, -, i, -, hcand⟩
  exact (candidateAt_some hcand).2.2.2.2.2.2

/-- C2 amended witness: the hd0 candidate passes the significance test. -/
theorem classifier_significance_or_code_witness :
    ((3 : ℚ) ≥ 1 / 10 ∧ (60 : ℚ) ≥ 20) ∨ (0 : ℤ) ∈ rainCodes :=
  classifier_significance_or_code hd0 0 24 ⟨1800, 3, 60, .moderate, 0⟩ (by
    norm_num [get_detailed_rain_alert, hd0, candidateAt, classifyIntensity, rainCodes,
      List.range_succ, List.filterMap_cons])

/-- C6 counterexample: the extractor bounds the scan by entry count, not
by timestamp; a series whose first entry lies 1000 hours ahead yields a
candidate far beyond now + 24 hours. -/
theorem horizon_bound_counterexample :
    get_detailed_rain_alert hdC6 0 24
        = [{ time := 3600000, precipitation := 5, probability := 80,
             intensity := .moderate, weather_code := 0 }] ∧
      (3600000 : ℚ) > 0 + 24 * 3600 := by
  constructor
  · norm_num [get_detailed_rain_alert, hdC6, candidateAt, classifyIntensity, rainCodes,
      List.range_succ, List.filterMap_cons]
  · norm_num

/-- C6 amended: the horizon bound is positional, not temporal — the
extractor scans only the first horizon_hours entries of the series, so
every returned candidate originates from an index below horizon_hours
(and below the series length). -/
theorem horizon_index_bound (hd : HourlyData) (now : ℚ) (hours : ℕ)
    (times : List (Option ℚ)) (ht : hd.time = some times) (e : RainEvent)
    (he : e ∈ get_detailed_rain_alert hd now hours) :
    ∃ i, i < hours ∧ i < times.length ∧ times.getD i none = some e.time := by
  rcases mem_gdra he with ⟨times2, precipArr, ht2, -, i, hi, hcand⟩
  rw [ht] at ht2
  cases ht2
  exact ⟨i, lt_of_lt_of_le hi (min_le_left _ _),
    lt_of_lt_of_le hi (min_le_right _ _), (candidateAt_some hcand).1⟩

/-- C6 amended witness: the hd0 candidate comes from an index below 24. -/
theorem horizon_index_bound_witness :
    ∃ i, i < 24 ∧ i < ([some (1800 : ℚ)] : List (Option ℚ)).length ∧
      ([some (1800 : ℚ)] : List (Option ℚ)).getD i none = some 1800 :=
  horizon_index_bound hd0 0 24 [some 1800] rfl ⟨1800, 3, 60, .moderate, 0⟩ (by
    norm_num [get_detailed_rain_alert, hd0, candidateAt, classifyIntensity, rainCodes,
      List.range_succ, List.filterMap_cons])

/-- C4: the cooldown check answers true exactly when the key has a
parsable record whose elapsed age in hours is below the cooldown; once
the elapsed age reaches the cooldown the check answers false, so the
pipeline's duplicate gate no longer suppresses the key. -/
theorem cooldown_iff (tr : Tracker) (now : ℚ) (u c ts : String) (cd : ℚ) :
    ((has_alert_been_sent_recently tr now u c ts cd).1 = true ↔
      ∃ t, tr.lookup (eventKey u c ts) = some (some t) ∧ (now - t) / 3600 < cd) ∧
    ∀ t, tr.lookup (eventKey u c ts) = some (some t) → cd ≤ (now - t) / 3600 →
      (has_alert_been_sent_recently tr now u c ts cd).1 = false := by
  have hfst : (has_alert_been_sent_recently tr now u c ts cd).1 =
      match tr.lookup (eventKey u c ts) with
      | some (some t) => decide ((now - t) / 3600 < cd)
      | _ => false := by
    unfold has_alert_been_sent_recently
    cases tr.lookup (eventKey u c ts) with
    | none => rfl
    | some v =>
      cases v with
      | none => rfl
      | some t => by_cases h : (now - t) / 3600 < cd <;> simp [h]
  constructor
  · rw [hfst]
    cases hl : tr.lookup (eventKey u c ts) with
    | none => simp
    | some v =>
      cases v with
      | none => simp
      | some t0 =>
        simp only [decide_eq_true_eq]
        constructor
        · exact fun h => ⟨t0, rfl, h⟩
        · rintro ⟨t, ht, hlt⟩
          simp only [Option.some.injEq] at ht
          subst ht
          exact hlt
  · intro t htl hcd
    rw [hfst, htl]
    simp only [decide_eq_false_iff_not]
    exact not_lt.mpr hcd

/-- C4 witness: a record written at instant 0 still suppresses the key
about 2.8 hours later with a 6-hour cooldown. -/
theorem cooldown_iff_witness :
    (has_alert_been_sent_recently trW 10000 "u" "c" "t" 6).1 = true :=
  (cooldown_iff trW 10000 "u" "c" "t" 6).1.mpr ⟨0, by rfl, by norm_num⟩

/-- The head of the upcoming-rain filter belongs to the event list and
passes the window test. -/
theorem head_upcoming_mem {events : List RainEvent} {now : ℚ} {e : RainEvent}
    (hh : (upcomingRain events now).head? = some e) :
    e ∈ events ∧ inAlertWindow e now = true := by
  have hmem : e ∈ upcomingRain events now := by
    cases hu : upcomingRain events now with
    | nil => rw [hu] at hh; simp at hh
    | cons a l =>
      rw [hu] at hh
      simp only [List.head?_cons, Option.some.injEq] at hh
      rw [← hh]
      exact List.mem_cons_self a l
  exact List.mem_filter.mp hmem

/-- On a chronologically sorted event list, the head of the filtered
upcoming list is no later than any event passing the window test. -/
theorem head_upcoming_earliest {events : List RainEvent} {now : ℚ} {e : RainEvent}
    (hs : List.Pairwise (fun a b => a.time ≤ b.time) events)
    (hh : (upcomingRain events now).head? = some e) :
    ∀ x ∈ events, inAlertWindow x now = true → e.time ≤ x.time := by
  induction events with
  | nil => simp [upcomingRain] at hh
  | cons a l ih =>
    rcases List.pairwise_cons.mp hs with ⟨ha, hl⟩
    by_cases hpa : inAlertWindow a now = true
    · rw [upcomingRain, List.filter_cons, if_pos hpa] at hh
      simp only [List.head?_cons, Option.some.injEq] at hh
      subst hh
      intro x hx hpx
      rcases List.mem_cons.mp hx with hxa | hxl
      · subst hxa; exact le_refl _
      · exact ha x hxl
    · rw [upcomingRain, List.filter_cons, if_neg hpa] at hh
      intro x hx hpx
      rcases List.mem_cons.mp hx with hxa | hxl
      · subst hxa; exact absurd hpx hpa
      · exact ih hl hh x hxl hpx

/-- C3: if the scan selects an alert (the head of the 15-90 minute
filtered list), it lies strictly inside the window, no in-window event
of the (sorted) list is chronologically earlier, and events at exactly
15 or exactly 90 minutes are never in the filtered list at all. The
selection is at most one alert by construction (the head of the list). -/
theorem imminence_selection (events : List RainEvent) (now : ℚ) (e : RainEvent)
    (hs : List.Pairwise (fun a b => a.time ≤ b.time) events)
    (hh : (upcomingRain events now).head? = some e) :
    (15 * 60 < e.time - now ∧ e.time - now < 90 * 60) ∧
    (∀ x ∈ events, 15 * 60 < x.time - now → x.time - now < 90 * 60 → e.time ≤ x.time) ∧
    (∀ x ∈ events, x.time - now = 15 * 60 ∨ x.time - now = 90 * 60 →
      x ∉ upcomingRain events now) := by
  refine ⟨?_, ?_, ?_⟩
  · have := (head_upcoming_mem hh).2
    rw [inAlertWindow, decide_eq_true_eq] at this
    exact this
  · intro x hx h1 h2
    exact head_upcoming_earliest hs hh x hx
      (by rw [inAlertWindow, decide_eq_true_eq]; exact ⟨h1, h2⟩)
  · intro x hx hbd hmem
    have := (List.mem_filter.mp hmem).2
    rw [inAlertWindow, decide_eq_true_eq] at this
    rcases hbd with hb | hb
    · exact absurd this.1 (by rw [hb]; exact lt_irrefl _)
    · exact absurd this.2 (by rw [hb]; exact lt_irrefl _)

/-- Association lookup on a cons cell, phrased as a conditional. -/
theorem lookup_cons_ite {α β : Type} [BEq α] (k a : α) (b : β) (es : List (α × β)) :
    ((k, b) :: es).lookup a = if a == k then some b else es.lookup a := by
  rw [List.lookup_cons]
  cases h : a == k <;> simp

/-- A successful ledger lookup locates the pair in the ledger list. -/
theorem lookup_mem {tr : Tracker} {k : String} {v : Option ℚ}
    (h : tr.lookup k = some v) : (k, v) ∈ tr := by
  rcases List.lookup_eq_some_iff.mp h with ⟨l₁, l₂, rfl, -⟩
  simp

/-- Right after a write, the written key holds the write instant: the
fresh record survives the 24-hour pruning pass. -/
theorem lookup_mark_self (tr : Tracker) (now : ℚ) (u c ts : String) :
    (mark_alert_as_sent tr now u c ts).lookup (eventKey u c ts) = some (some now) := by
  unfold mark_alert_as_sent setEntry
  rw [List.filter_cons]
  norm_num

/-- The cooldown check leaves a well-formed ledger untouched. -/
theorem hasAlert_snd_of_wf (tr : Tracker) (now : ℚ) (u c ts : String) (cd : ℚ)
    (hwf : WellFormedTracker tr) :
    (has_alert_been_sent_recently tr now u c ts cd).2 = tr := by
  unfold has_alert_been_sent_recently
  cases hl : tr.lookup (eventKey u c ts) with
  | none => rfl
  | some v =>
    cases v with
    | none => exact absurd (hwf _ (lookup_mem hl)) (by simp)
    | some t => by_cases h : (now - t) / 3600 < cd <;> simp [h]

/-- C3 witness: of two sorted in-window events 20 and 50 minutes ahead,
the selected one is the earlier, the later heavier one is never earlier,
and boundary events are excluded. -/
theorem imminence_selection_witness :
    (15 * 60 < evA.time - 0 ∧ evA.time - 0 < 90 * 60) ∧
    (∀ x ∈ [evA, evB], 15 * 60 < x.time - 0 → x.time - 0 < 90 * 60 → evA.time ≤ x.time) ∧
    (∀ x ∈ [evA, evB], x.time - 0 = 15 * 60 ∨ x.time - 0 = 90 * 60 →
      x ∉ upcomingRain [evA, evB] 0) :=
  imminence_selection [evA, evB] 0 evA
    (by norm_num [List.pairwise_cons, evA, evB])
    (by norm_num [upcomingRain, inAlertWindow, List.filter_cons, evA, evB])

/-- C1: if a scan of one user sends an alert (recording it in the
ledger), then an immediately repeated scan of the same user over the same
forecast with the same reference instant finds the cooldown record,
answers the duplicate check positively, and skips — one send in total for
the key, and the first run's write is visible in the resulting ledger. -/
theorem dedup_idempotent (ctx : UserCtx) (now : ℚ) (tr tr' : Tracker)
    (h : processUser ctx now tr = (.sent, tr')) :
    (∃ city ts, ctx.city = some city ∧
      tr'.lookup (eventKey ctx.userId city ts) = some (some now)) ∧
    processUser ctx now tr' = (.skippedDup, tr') := by
  unfold processUser at h
  split at h
  next => exact absurd h (by simp)
  next city hcity =>
    split at h
    next e hco => exact absurd h (by simp)
    next hco => exact absurd h (by simp)
    next xy hco =>
      split at h
      next e hfc => exact absurd h (by simp)
      next hfc => exact absurd h (by simp)
      next hd hfc =>
        split at h
        next hemp => exact absurd h (by simp)
        next hemp =>
          split at h
          next hup => exact absurd h (by simp)
          next firstRain hup =>
            split at h
            next hdup => exact absurd h (by simp)
            next hdup =>
              split at h
              next hsr => exact absurd h (by simp)
              next hsr =>
                have htr' : tr' = mark_alert_as_sent
                    (has_alert_been_sent_recently tr now ctx.userId city
                      (hhmmBucket firstRain.time) 6).2 now ctx.userId city
                    (hhmmBucket firstRain.time) :=
                  (((Prod.mk.injEq _ _ _ _).mp h).2).symm
                have hlk : tr'.lookup (eventKey ctx.userId city (hhmmBucket firstRain.time))
                    = some (some now) := by
                  rw [htr']; exact lookup_mark_self _ _ _ _ _
                refine ⟨⟨city, hhmmBucket firstRain.time, hcity, hlk⟩, ?_⟩
                have hha : has_alert_been_sent_recently tr' now ctx.userId city
                    (hhmmBucket firstRain.time) 6 = (true, tr') := by
                  unfold has_alert_been_sent_recently
                  rw [hlk]
                  norm_num
                simp only [processUser, hcity, hco, hfc]
                rw [if_neg hemp]
                simp only [hup]
                simp [hha]

/-- C1 witness: the concrete user ctx0 sends at instant 0 on the empty
ledger; the immediate rerun over the written ledger skips as duplicate. -/
theorem dedup_idempotent_witness :
    (∃ city ts, ctx0.city = some city ∧
      (([("u1_Rome_0:30", some (0 : ℚ))] : Tracker)).lookup
        (eventKey ctx0.userId city ts) = some (some 0)) ∧
    processUser ctx0 0 [("u1_Rome_0:30", some (0 : ℚ))]
      = (.skippedDup, [("u1_Rome_0:30", some (0 : ℚ))]) :=
  dedup_idempotent ctx0 0 [] [("u1_Rome_0:30", some 0)] (by
    norm_num [processUser, ctx0, hd0, get_detailed_rain_alert, candidateAt,
      classifyIntensity, rainCodes, List.range_succ, List.filterMap_cons, upcomingRain,
      inAlertWindow, has_alert_been_sent_recently, mark_alert_as_sent, setEntry, eventKey,
      hhmmBucket, List.filter_cons]
    rfl)

/-- C10: when the pipeline reaches the send step (city resolved, forecast
fetched, an imminent event selected, cooldown clear on a well-formed
ledger) and the send raises, the per-user handler reports an error and
the ledger comes out exactly as it went in — in particular
mark_alert_as_sent never ran, so the key stays eligible for the next
scan. -/
theorem send_failure_atomicity (ctx : UserCtx) (now : ℚ) (tr : Tracker)
    (city : String) (xy : ℚ × ℚ) (hd : HourlyData) (e : RainEvent)
    (hwf : WellFormedTracker tr)
    (hcity : ctx.city = some city)
    (hco : ctx.coords = .ok (some xy))
    (hfc : ctx.forecast = .ok (some hd))
    (hup : (upcomingRain (get_detailed_rain_alert hd now 24) now).head? = some e)
    (hdup : (has_alert_been_sent_recently tr now ctx.userId city
      (hhmmBucket e.time) 6).1 = false)
    (hraise : ctx.sendRaises = true) :
    processUser ctx now tr = (.errored, tr) := by
  have hne : (get_detailed_rain_alert hd now 24).isEmpty ≠ true := by
    intro hemp
    have hnil : get_detailed_rain_alert hd now 24 = [] := by
      simpa using hemp
    rw [hnil] at hup
    simp [upcomingRain] at hup
  have hsnd := hasAlert_snd_of_wf tr now ctx.userId city (hhmmBucket e.time) 6 hwf
  simp only [processUser, hcity, hco, hfc]
  rw [if_neg hne]
  simp only [hup]
  rw [if_neg (by rw [hdup]; simp), if_pos hraise, hsnd]

/-- C10 witness: ctxRaise reaches the send at instant 0 on the empty
ledger, the send raises, and the ledger is unchanged. -/
theorem send_failure_atomicity_witness :
    processUser ctxRaise 0 [] = (.errored, []) :=
  send_failure_atomicity ctxRaise 0 [] "Rome" (1, 1) hd0 ⟨1800, 3, 60, .moderate, 0⟩
    (fun p hp => absurd hp (List.not_mem_nil p))
    rfl rfl rfl
    (by norm_num [upcomingRain, inAlertWindow, get_detailed_rain_alert, hd0, candidateAt,
      classifyIntensity, rainCodes, List.range_succ, List.filterMap_cons, List.filter_cons])
    rfl rfl

/-- Counter updates decompose: updating counts c is updating zero counts
and adding c componentwise. -/
theorem applyResult_decomp (c : Counts) (r : StepResult) :
    applyResult c r = ⟨c.sent + (applyResult ⟨0, 0, 0⟩ r).sent,
      c.skipped + (applyResult ⟨0, 0, 0⟩ r).skipped,
      c.errors + (applyResult ⟨0, 0, 0⟩ r).errors⟩ := by
  cases r <;> simp [applyResult]

/-- The scan fold from arbitrary initial counts equals the scan fold from
zero counts with the initial counts added componentwise; the final ledger
does not depend on the initial counts. -/
theorem foldl_scanStep_shift (now : ℚ) (us : List UserCtx) :
    ∀ (c : Counts) (tr : Tracker),
      List.foldl (scanStep now) (c, tr) us =
        (⟨c.sent + (runScan us now tr).1.sent,
          c.skipped + (runScan us now tr).1.skipped,
          c.errors + (runScan us now tr).1.errors⟩,
         (runScan us now tr).2) := by
  induction us with
  | nil => intro c tr; simp [runScan]
  | cons u l ih =>
    intro c tr
    rw [List.foldl_cons, runScan, List.foldl_cons]
    have hstep : scanStep now (c, tr) u =
        (applyResult c (processUser u now tr).1, (processUser u now tr).2) := rfl
    have hstep0 : scanStep now (⟨0, 0, 0⟩, tr) u =
        (applyResult ⟨0, 0, 0⟩ (processUser u now tr).1, (processUser u now tr).2) := rfl
    rw [hstep, hstep0, ih, ih]
    cases hr : (processUser u now tr).1 <;>
      simp [applyResult, Prod.ext_iff] <;> omega

/-- C5: a user whose processing raises (modelled as a user whose pipeline
yields the errored outcome and leaves the ledger untouched, e.g. city
resolution throwing) contributes exactly one to the error count; every
user before and after it in the same scan is processed exactly as it
would be without the poisoned user. -/
theorem batch_isolation (xs ys : List UserCtx) (bad : UserCtx) (now : ℚ) (tr : Tracker)
    (hbad : ∀ t : Tracker, processUser bad now t = (.errored, t)) :
    runScan (xs ++ bad :: ys) now tr =
      (⟨(runScan xs now tr).1.sent + (runScan ys now (runScan xs now tr).2).1.sent,
        (runScan xs now tr).1.skipped
          + (runScan ys now (runScan xs now tr).2).1.skipped,
        (runScan xs now tr).1.errors
          + (runScan ys now (runScan xs now tr).2).1.errors + 1⟩,
       (runScan ys now (runScan xs now tr).2).2) := by
  rw [runScan, List.foldl_append, List.foldl_cons]
  have hxs : List.foldl (scanStep now) (⟨0, 0, 0⟩, tr) xs = runScan xs now tr := rfl
  rw [hxs]
  have hstep : scanStep now (runScan xs now tr) bad =
      (applyResult (runScan xs now tr).1 .errored, (runScan xs now tr).2) := by
    show (applyResult _ (processUser bad now (runScan xs now tr).2).1,
      (processUser bad now (runScan xs now tr).2).2) = _
    rw [hbad]
  rw [hstep, foldl_scanStep_shift]
  simp [applyResult, Prod.ext_iff]
  omega

/-- C5 witness: three users, the middle one poisoned — the two others
both send (2 sends, 1 error), and the final ledger holds both keys. -/
theorem batch_isolation_witness :
    runScan ([ctx0] ++ ctxBad :: [ctx2]) 0 [] =
      (⟨2, 0, 1⟩, [("u2_Rome_0:30", some (0 : ℚ)), ("u1_Rome_0:30", some (0 : ℚ))]) :=
  (batch_isolation [ctx0] [ctx2] ctxBad 0 [] (fun t => rfl)).trans (by
    have hb : hhmmBucket 1800 = "0:30" := by
      norm_num [hhmmBucket]
      rfl
    norm_num +decide [runScan, scanStep, applyResult, processUser, ctx0, ctx2, hd0,
      get_detailed_rain_alert, candidateAt, classifyIntensity, rainCodes, List.range_succ,
      List.filterMap_cons, upcomingRain, inAlertWindow, hb, has_alert_been_sent_recently,
      mark_alert_as_sent, setEntry, eventKey, List.filter_cons, lookup_cons_ite])
